import Mathlib

/-!
Verification of the teambuild repository: a shallow embedding of the
financial-metrics calculator (src/finance.py) and the company-profile
extractor / competitor lookup (src/company.py), with theorems settling
the spec claims.

Numeric values are modelled as exact rationals (`Rat`); Python exceptions
are modelled as `Except String`; a Python value that may be `None`, a
scalar, a list or a dict (the shape of decoded JSON) is modelled by the
inductive `JVal`.
-/

namespace Teambuild

/-! ## Financial metrics (src/finance.py)

A CSV row with the three required columns `month`, `expenses`,
`cash_balance` is modelled as a typed record; a parsed CSV dataset is a
`List MonthlyRecord` (so "the required columns are present" holds by
construction, and an empty list models an empty dataset). -/

structure MonthlyRecord where
  month : String
  expenses : Rat
  cash_balance : Rat
  deriving Repr, DecidableEq

/-- `calculate_burn(df)`: mean of the expenses column; `ValueError` when the
dataset is empty.  (The required-columns check of the Python code is
subsumed by the `MonthlyRecord` type.)  pandas' `Series.mean` on the
expenses column is the sum divided by the number of rows. -/
def calculate_burn (rows : List MonthlyRecord) : Except String Rat :=
  if rows.isEmpty then
    .error "DataFrame is empty or None"
  else
    .ok ((rows.map (·.expenses)).sum / (rows.length : Rat))

/-- `calculate_runway(cash_balance, monthly_burn)` from src/finance.py. -/
def calculate_runway (cash_balance monthly_burn : Rat) : Except String Rat :=
  if cash_balance < 0 then .error "cash_balance must be non-negative"
  else if monthly_burn < 0 then .error "monthly_burn must be non-negative"
  else if monthly_burn = 0 then .ok 0
  else .ok (cash_balance / monthly_burn)

/-- `simulate_downside(monthly_burn, increase_percent=20)` from src/finance.py. -/
def simulate_downside (monthly_burn : Rat) (increase_percent : Rat := 20) :
    Except String Rat :=
  if monthly_burn < 0 then .error "monthly_burn must be non-negative"
  else if increase_percent < 0 then .error "increase_percent must be non-negative"
  else .ok (monthly_burn * (1 + increase_percent / 100))

structure FinancialMetrics where
  burn : Rat
  runway : Rat
  downside_burn : Rat
  runway_at_downside : Rat
  deriving Repr, DecidableEq

/-- Mean of the expenses column, as a plain function (helper). -/
def meanExpenses (rows : List MonthlyRecord) : Rat :=
  (rows.map (·.expenses)).sum / (rows.length : Rat)

/-- Cash balance of the last row (helper; only used on non-empty lists). -/
def lastCash (rows : List MonthlyRecord) : Rat :=
  (rows.getLast?.getD ⟨"", 0, 0⟩).cash_balance

/-- `analyze_financials(csv_path)` from src/finance.py, after the CSV has
been read into typed rows: the file-system and column checks reduce to the
emptiness check, then burn, last-row cash balance, runway, downside burn
at 20%, and runway under the downside burn. -/
def analyze_financials (rows : List MonthlyRecord) : Except String FinancialMetrics :=
  if rows.isEmpty then .error "CSV contains no data"
  else
    match calculate_burn rows with
    | .error e => .error e
    | .ok burn =>
      let cash_balance := lastCash rows
      match calculate_runway cash_balance burn with
      | .error e => .error e
      | .ok runway =>
        match simulate_downside burn 20 with
        | .error e => .error e
        | .ok downside_burn =>
          match calculate_runway cash_balance downside_burn with
          | .error e => .error e
          | .ok runway_at_downside =>
            .ok ⟨burn, runway, downside_burn, runway_at_downside⟩

/-- The 3-row dataset of the spec's worked example: expenses
`[1000, 1000, 1000]`, cash balance ending at `10000`. -/
def csvExample : List MonthlyRecord :=
  [⟨"2024-01", 1000, 12000⟩, ⟨"2024-02", 1000, 11000⟩, ⟨"2024-03", 1000, 10000⟩]

/-! ## Decoded JSON values (src/company.py works on `json.loads` output)

A Python value decoded from JSON is `None`, a bool, an int, a float, a
string, a list, or a dict; floats are modelled as exact rationals. -/

inductive JVal where
  | null
  | bool (b : Bool)
  | int (n : Int)
  | float (q : Rat)
  | str (s : String)
  | arr (elements : List JVal)
  | obj (fields : List (String × JVal))

/-- Python truthiness of a decoded JSON value: `None`, `False`, `0`, `""`,
`[]` and `` {} `` are falsy, everything else truthy. -/
def pyTruthy : JVal → Bool
  | .null => false
  | .bool b => b
  | .int n => n != 0
  | .float q => q != 0
  | .str s => s != ""
  | .arr elements => !elements.isEmpty
  | .obj fields => !fields.isEmpty

mutual

/-- Python `str()` of a decoded JSON value.  Scalars render as in Python
(`None`, `True`, `False`, decimal integers, the string itself); containers
render through `pyRepr`.  Float rendering and the escaping of quotes inside
nested reprs are abstracted (the claims never depend on them). -/
def pyStr : JVal → String
  | .str s => s
  | .arr elements => "[" ++ pyReprSeq elements ++ "]"
  | .obj fields => "\x7b" ++ pyReprFields fields ++ "\x7d"
  | .null => "None"
  | .bool true => "True"
  | .bool false => "False"
  | .int n => toString n
  | .float q => toString q

/-- Python `repr()` of a decoded JSON value (strings gain quotes). -/
def pyRepr : JVal → String
  | .str s => "'" ++ s ++ "'"
  | .arr elements => "[" ++ pyReprSeq elements ++ "]"
  | .obj fields => "\x7b" ++ pyReprFields fields ++ "\x7d"
  | .null => "None"
  | .bool true => "True"
  | .bool false => "False"
  | .int n => toString n
  | .float q => toString q

def pyReprSeq : List JVal → String
  | [] => ""
  | [v] => pyRepr v
  | v :: rest => pyRepr v ++ ", " ++ pyReprSeq rest

def pyReprFields : List (String × JVal) → String
  | [] => ""
  | [(k, v)] => "'" ++ k ++ "': " ++ pyRepr v
  | (k, v) :: rest => "'" ++ k ++ "': " ++ pyRepr v ++ ", " ++ pyReprFields rest

end

/-- Characters stripped by Python `str.strip()` with no argument
(ASCII whitespace; exotic Unicode spaces are not modelled). -/
def pyIsSpace (c : Char) : Bool :=
  c = ' ' || c = '\t' || c = '\n' || c = '\r' || c = '\x0b' || c = '\x0c'

/-- Python `str.strip()`. -/
def pyStrip (s : String) : String :=
  String.mk (((s.toList.dropWhile pyIsSpace).reverse.dropWhile pyIsSpace).reverse)

/-- Python `s[:n]` (slice of the first `n` characters). -/
def pyTake (n : Nat) (s : String) : String :=
  String.mk (s.toList.take n)

/-- Python `dict.get(key)` on a decoded JSON object: `None` when the key is
absent.  `json.loads` resolves duplicate keys last-wins, which the
last-match lookup reproduces. -/
def dictGet (fields : List (String × JVal)) (key : String) : JVal :=
  match (fields.filter (fun p => p.1 == key)).getLast? with
  | some p => p.2
  | none => .null

/-- `isinstance(v, dict)` guard giving access to the fields. -/
def asObj : JVal → Option (List (String × JVal))
  | .obj fields => some fields
  | _ => none

/-! ## A model of Python `json.loads` (the stdlib decoder, not repository
code): a recursive-descent JSON parser.  Fuel makes the mutual recursion
structural; the initial fuel (one unit per input character plus one) can
never run out because every recursive step consumes input.  Python's
non-standard `NaN`/`Infinity` extensions are not modelled. -/

def jsonWs (c : Char) : Bool :=
  c = ' ' || c = '\t' || c = '\n' || c = '\r'

def skipWs : List Char → List Char
  | [] => []
  | c :: rest => if jsonWs c then skipWs rest else c :: rest

def hexVal (c : Char) : Option Nat :=
  if '0' ≤ c ∧ c ≤ '9' then some (c.toNat - '0'.toNat)
  else if 'a' ≤ c ∧ c ≤ 'f' then some (c.toNat - 'a'.toNat + 10)
  else if 'A' ≤ c ∧ c ≤ 'F' then some (c.toNat - 'A'.toNat + 10)
  else none

def digitVal (c : Char) : Option Nat :=
  if '0' ≤ c ∧ c ≤ '9' then some (c.toNat - '0'.toNat) else none

/-- Body of a JSON string literal after the opening quote, with escapes
(`\"`, `\\`, `\/`, `\b`, `\f`, `\n`, `\r`, `\t`, `\uXXXX`; surrogate pairs
are not combined). -/
def parseStringBody : List Char → String → Except String (String × List Char)
  | [], _ => .error "Unterminated string"
  | '"' :: rest, acc => .ok (acc, rest)
  | '\\' :: rest, acc =>
    match rest with
    | [] => .error "Unterminated string"
    | e :: rest2 =>
      if e = '"' then parseStringBody rest2 (acc.push '"')
      else if e = '\\' then parseStringBody rest2 (acc.push '\\')
      else if e = '/' then parseStringBody rest2 (acc.push '/')
      else if e = 'b' then parseStringBody rest2 (acc.push '\x08')
      else if e = 'f' then parseStringBody rest2 (acc.push '\x0c')
      else if e = 'n' then parseStringBody rest2 (acc.push '\n')
      else if e = 'r' then parseStringBody rest2 (acc.push '\r')
      else if e = 't' then parseStringBody rest2 (acc.push '\t')
      else if e = 'u' then
        match rest2 with
        | h1 :: h2 :: h3 :: h4 :: rest3 =>
          match hexVal h1, hexVal h2, hexVal h3, hexVal h4 with
          | some a, some b, some c, some d =>
            parseStringBody rest3 (acc.push (Char.ofNat (((a * 16 + b) * 16 + c) * 16 + d)))
          | _, _, _, _ => .error "Invalid hex escape"
        | _ => .error "Invalid hex escape"
      else .error "Invalid escape"
  | c :: rest, acc => parseStringBody rest (acc.push c)

/-- Consume a run of decimal digits, returning value, count and rest. -/
def parseDigits : List Char → Nat → Nat → Nat × Nat × List Char
  | [], acc, cnt => (acc, cnt, [])
  | c :: rest, acc, cnt =>
    match digitVal c with
    | some d => parseDigits rest (acc * 10 + d) (cnt + 1)
    | none => (acc, cnt, c :: rest)

/-- A JSON number: `-?(0|[1-9][0-9]*)(\.[0-9]+)?([eE][-+]?[0-9]+)?`; an
integer literal decodes to a Python int, otherwise to a float. -/
def parseNumber (cs : List Char) : Except String (JVal × List Char) :=
  let signedTail : Bool × List Char :=
    match cs with
    | '-' :: rest => (true, rest)
    | _ => (false, cs)
  let neg := signedTail.1
  let intPart : Nat × Nat × List Char :=
    match signedTail.2 with
    | '0' :: rest => (0, 1, rest)
    | other => parseDigits other 0 0
  let ip := intPart.1
  if intPart.2.1 = 0 then .error "Expecting value"
  else
    let fracPart : Bool × Nat × Nat × List Char :=
      match intPart.2.2 with
      | '.' :: rest =>
        let d := parseDigits rest 0 0
        (true, d.1, d.2.1, d.2.2)
      | other => (false, 0, 0, other)
    if fracPart.1 ∧ fracPart.2.2.1 = 0 then .error "Invalid number"
    else
      let expPart : Bool × Int × Nat × List Char :=
        match fracPart.2.2.2 with
        | 'e' :: '-' :: rest =>
          let d := parseDigits rest 0 0
          (true, -(d.1 : Int), d.2.1, d.2.2)
        | 'e' :: '+' :: rest =>
          let d := parseDigits rest 0 0
          (true, (d.1 : Int), d.2.1, d.2.2)
        | 'e' :: rest =>
          let d := parseDigits rest 0 0
          (true, (d.1 : Int), d.2.1, d.2.2)
        | 'E' :: '-' :: rest =>
          let d := parseDigits rest 0 0
          (true, -(d.1 : Int), d.2.1, d.2.2)
        | 'E' :: '+' :: rest =>
          let d := parseDigits rest 0 0
          (true, (d.1 : Int), d.2.1, d.2.2)
        | 'E' :: rest =>
          let d := parseDigits rest 0 0
          (true, (d.1 : Int), d.2.1, d.2.2)
        | other => (false, 0, 1, other)
      if expPart.1 ∧ expPart.2.2.1 = 0 then .error "Invalid number"
      else
        let rest := if expPart.1 then expPart.2.2.2 else fracPart.2.2.2
        if fracPart.1 ∨ expPart.1 then
          let mag : Rat :=
            ((ip : Rat) + (fracPart.2.1 : Rat) / ((10 : Rat) ^ fracPart.2.2.1)) *
              (10 : Rat) ^ expPart.2.1
          .ok (.float (if neg then -mag else mag), rest)
        else
          .ok (.int (if neg then -(ip : Int) else (ip : Int)), rest)

mutual

/-- One JSON value, starting at the first non-whitespace character. -/
def parseValue : Nat → List Char → Except String (JVal × List Char)
  | 0, _ => .error "Recursion limit exceeded"
  | fuel + 1, cs =>
    match skipWs cs with
    | [] => .error "Expecting value"
    | c :: rest =>
      if c = '\x7b' then parseMembers fuel rest [] true
      else if c = '[' then parseElements fuel rest [] true
      else if c = '"' then
        match parseStringBody rest "" with
        | .error e => .error e
        | .ok sr => .ok (.str sr.1, sr.2)
      else if c = 't' then
        match rest with
        | 'r' :: 'u' :: 'e' :: rest2 => .ok (.bool true, rest2)
        | _ => .error "Expecting value"
      else if c = 'f' then
        match rest with
        | 'a' :: 'l' :: 's' :: 'e' :: rest2 => .ok (.bool false, rest2)
        | _ => .error "Expecting value"
      else if c = 'n' then
        match rest with
        | 'u' :: 'l' :: 'l' :: rest2 => .ok (.null, rest2)
        | _ => .error "Expecting value"
      else if c = '-' ∨ (digitVal c).isSome then parseNumber (c :: rest)
      else .error "Expecting value"

/-- Members of a JSON object after the opening brace or after a comma;
`first` is true only directly after the opening brace, where an immediate
closing brace yields the empty object. -/
def parseMembers : Nat → List Char → List (String × JVal) → Bool →
    Except String (JVal × List Char)
  | 0, _, _, _ => .error "Recursion limit exceeded"
  | fuel + 1, cs, acc, first =>
    match skipWs cs with
    | [] => .error "Unterminated object"
    | c :: rest =>
      if c = '\x7d' ∧ first then .ok (.obj acc.reverse, rest)
      else if c = '"' then
        match parseStringBody rest "" with
        | .error e => .error e
        | .ok keyRest =>
          match skipWs keyRest.2 with
          | ':' :: rest3 =>
            match parseValue fuel rest3 with
            | .error e => .error e
            | .ok vr =>
              match skipWs vr.2 with
              | ',' :: rest5 => parseMembers fuel rest5 ((keyRest.1, vr.1) :: acc) false
              | '\x7d' :: rest5 => .ok (.obj ((keyRest.1, vr.1) :: acc).reverse, rest5)
              | _ => .error "Expecting comma or closing brace"
          | _ => .error "Expecting colon"
      else .error "Expecting property name"

/-- Elements of a JSON array after the opening bracket or after a comma. -/
def parseElements : Nat → List Char → List JVal → Bool →
    Except String (JVal × List Char)
  | 0, _, _, _ => .error "Recursion limit exceeded"
  | fuel + 1, cs, acc, first =>
    match skipWs cs with
    | [] => .error "Unterminated array"
    | c :: rest =>
      if c = ']' ∧ first then .ok (.arr acc.reverse, rest)
      else
        match parseValue fuel (c :: rest) with
        | .error e => .error e
        | .ok vr =>
          match skipWs vr.2 with
          | ',' :: rest3 => parseElements fuel rest3 (vr.1 :: acc) false
          | ']' :: rest3 => .ok (.arr (vr.1 :: acc).reverse, rest3)
          | _ => .error "Expecting comma or closing bracket"

end

/-- Model of Python `json.loads`: one JSON value, with only whitespace
allowed after it. -/
def jsonParse (s : String) : Except String JVal :=
  match parseValue (s.length + 1) s.toList with
  | .error e => .error e
  | .ok vr =>
    match skipWs vr.2 with
    | [] => .ok vr.1
    | _ => .error "Extra data"

/-! ## Company profile extraction (src/company.py) -/

structure CompanyProfile where
  business_model : JVal
  customer_type : JVal
  stage : JVal
  milestone : JVal
  mentioned_competitors : List String

/-- The all-defaults profile returned for empty input. -/
def emptyProfile : CompanyProfile :=
  ⟨.null, .null, .null, .null, []⟩

/-- `_ensure_competitors_list(value)` from src/company.py:
`None` gives `[]`; a list keeps its truthy items, each as `str(item).strip()`;
any other value becomes the one-element list `[str(value).strip()]`. -/
def _ensure_competitors_list (value : JVal) : List String :=
  match value with
  | .null => []
  | .arr items => (items.filter pyTruthy).map (fun item => pyStrip (pyStr item))
  | v => [pyStrip (pyStr v)]

/-- The normalization step at the end of `_parse_profile_json`: fixed keys
read with `dict.get` (so missing keys become null), and
`mentioned_competitors` coerced through `_ensure_competitors_list`. -/
def normalizeProfile (fields : List (String × JVal)) : CompanyProfile :=
  { business_model := dictGet fields "business_model"
    customer_type := dictGet fields "customer_type"
    stage := dictGet fields "stage"
    milestone := dictGet fields "milestone"
    mentioned_competitors :=
      _ensure_competitors_list (dictGet fields "mentioned_competitors") }

/-- Search `hay` for the first occurrence of `needle`, returning its index. -/
def findSubIdx : List Char → List Char → Option Nat
  | [], needle => if needle.isEmpty then some 0 else none
  | c :: rest, needle =>
    if needle.isPrefixOf (c :: rest) then some 0
    else
      match findSubIdx rest needle with
      | some i => some (i + 1)
      | none => none

/-- Model of the fenced-code-block search
`re.search(r"` ``(?:json)?\s*([\s\S]*?)\s*`` `", text)` followed by
`.group(1).strip()` in `_parse_profile_json`: the text between the first
triple-backtick fence (with an optional `json` tag directly after it) and
the next one, stripped.  The regex's lazy group together with the final
`.strip()` make this exactly "between the fences, stripped". -/
def fencedBlock (text : String) : Option String :=
  let cs := text.toList
  let fence := "```".toList
  match findSubIdx cs fence with
  | none => none
  | some i =>
    let after := cs.drop (i + 3)
    let after2 := if "json".toList.isPrefixOf after then after.drop 4 else after
    match findSubIdx after2 fence with
    | none => none
    | some j => some (pyStrip (String.mk (after2.take j)))

/-- The depth-counting scan of `_parse_profile_json`, started at the first
opening brace: index (relative to the start) of the matching closing brace,
or none if the scan ends without the depth returning to zero. -/
def braceFind : List Char → Int → Nat → Option Nat
  | [], _, _ => none
  | c :: rest, depth, i =>
    if c = '\x7b' then braceFind rest (depth + 1) (i + 1)
    else if c = '\x7d' then
      if depth - 1 = 0 then some i else braceFind rest (depth - 1) (i + 1)
    else braceFind rest depth (i + 1)

/-- The brace-truncation step of `_parse_profile_json`: locate the first
opening brace and cut the text down to it and its matching closing brace
(found by depth counting); if there is no opening brace, or the depth never
returns to zero, the text is left unchanged. -/
def braceTruncate (text : String) : String :=
  let cs := text.toList
  match cs.findIdx? (· = '\x7b') with
  | none => text
  | some start =>
    match braceFind (cs.drop start) 0 0 with
    | some i => String.mk ((cs.drop start).take (i + 1))
    | none => text

/-- `_parse_profile_json(response)` from src/company.py: strip, extract a
fenced code block if present, then (in either case) brace-truncate, decode
as JSON; a decode failure raises `ValueError` carrying the first 500
characters of the raw response, a decoded non-object raises `ValueError`
naming the Python type, and a decoded object is normalized. -/
def _parse_profile_json (response : String) : Except String CompanyProfile :=
  let text := pyStrip response
  let text1 :=
    match fencedBlock text with
    | some inner => inner
    | none => text
  let text2 := braceTruncate text1
  match jsonParse text2 with
  | .error e =>
    .error ("Failed to parse MiniMax response as JSON: " ++ e ++
      ". Raw response: " ++ pyTake 500 response)
  | .ok v =>
    match v with
    | .obj fields => .ok (normalizeProfile fields)
    | .null => .error "MiniMax response was not a JSON object: NoneType"
    | .bool _ => .error "MiniMax response was not a JSON object: bool"
    | .int _ => .error "MiniMax response was not a JSON object: int"
    | .float _ => .error "MiniMax response was not a JSON object: float"
    | .str _ => .error "MiniMax response was not a JSON object: str"
    | .arr _ => .error "MiniMax response was not a JSON object: list"

/-- The parsing pipeline exactly as the claim words it ("strip a fenced
code block if present, OTHERWISE locate the first brace and truncate at its
matching closing brace", with every non-object outcome a parse error that
carries the first 500 characters of the raw response).  Written from the
spec sentence, to be compared against `_parse_profile_json`. -/
def parseProfileClaimed (response : String) : Except String CompanyProfile :=
  let text := pyStrip response
  let text2 :=
    match fencedBlock text with
    | some inner => inner
    | none => braceTruncate text
  match jsonParse text2 with
  | .ok (.obj fields) => .ok (normalizeProfile fields)
  | _ =>
    .error ("Failed to parse MiniMax response as JSON. Raw response: " ++
      pyTake 500 response)

/-- The parsing pipeline as the amended claim words it: fence extraction if
present, then in either case brace truncation, then JSON decoding; a decode
failure carries the 500-character excerpt, a decoded non-object only the
type name.  Written from the amended sentence, to be compared against
`_parse_profile_json`. -/
def parseProfileAmended (response : String) : Except String CompanyProfile :=
  let extracted :=
    braceTruncate ((fencedBlock (pyStrip response)).getD (pyStrip response))
  match jsonParse extracted with
  | .ok (.obj fields) => .ok (normalizeProfile fields)
  | .ok .null => .error "MiniMax response was not a JSON object: NoneType"
  | .ok (.bool _) => .error "MiniMax response was not a JSON object: bool"
  | .ok (.int _) => .error "MiniMax response was not a JSON object: int"
  | .ok (.float _) => .error "MiniMax response was not a JSON object: float"
  | .ok (.str _) => .error "MiniMax response was not a JSON object: str"
  | .ok (.arr _) => .error "MiniMax response was not a JSON object: list"
  | .error e =>
    .error ("Failed to parse MiniMax response as JSON: " ++ e ++
      ". Raw response: " ++ pyTake 500 response)

/-- The fixed instruction prompt of src/company.py (content abbreviated to
its role; the claims do not depend on its text). -/
def SYSTEM_PROMPT : String :=
  "You are a startup analyst. Analyze the startup description provided and extract structured information."

/-- `extract_company_profile(startup_description)` from src/company.py.
The language-model call `chat_completion(SYSTEM_PROMPT, user)` is abstracted
as the function argument `chat` (which may fail, modelling `ValueError` /
`RuntimeError` from the HTTP wrapper). -/
def extract_company_profile (chat : String → String → Except String String)
    (startup_description : String) : Except String CompanyProfile :=
  if startup_description = "" ∨ pyStrip startup_description = "" then
    .ok emptyProfile
  else
    match chat SYSTEM_PROMPT (pyStrip startup_description) with
    | .error e => .error e
    | .ok response => _parse_profile_json response

/-! ## Competitor lookup (src/company.py, `find_competitors`) -/

/-- Outcome of the single `requests.get` call: a transport-level failure
(connection error, timeout, ... — `requests.RequestException`) or an HTTP
response with a status code and a body. -/
inductive HttpResult where
  | requestError (msg : String)
  | response (status : Nat) (body : String)

/-- A string if it is truthy (non-empty), used for the
`... and str(name).strip()` guard. -/
def truthyString (s : String) : Option String :=
  if s = "" then none else some s

/-- The accepted name of one registry entry: `name = company.get("name")`
must not be `None` and `str(name).strip()` must be truthy (non-empty). -/
def strippedName : JVal → Option String
  | .null => none
  | v => truthyString (pyStrip (pyStr v))

/-- What one item of the `companies` list contributes, combining the
`isinstance` guards and the name check of the loop body. -/
def acceptedName (item : JVal) : Option String :=
  match asObj item with
  | none => none
  | some ifields =>
    match asObj (dictGet ifields "company") with
    | none => none
    | some cfields => strippedName (dictGet cfields "name")

/-- The collection loop of `find_competitors`: walk the items, append each
accepted name, and break as soon as ten names have been collected (the
length check runs after each item whose `company` value is a dict). -/
def collectNames : List JVal → List String → List String
  | [], names => names
  | item :: rest, names =>
    match asObj item with
    | none => collectNames rest names
    | some ifields =>
      match asObj (dictGet ifields "company") with
      | none => collectNames rest names
      | some cfields =>
        let names1 :=
          match strippedName (dictGet cfields "name") with
          | none => names
          | some s => names ++ [s]
        if 10 ≤ names1.length then names1 else collectNames rest names1

/-- Python iteration over the decoded `companies` value: lists yield their
elements, strings their characters, dicts their keys; numbers and booleans
raise `TypeError`. -/
def pyIterate : JVal → Except String (List JVal)
  | .arr elements => .ok elements
  | .str s => .ok (s.toList.map (fun c => .str (String.mk [c])))
  | .obj fields => .ok (fields.map (fun p => .str p.1))
  | .null => .error "TypeError: NoneType is not iterable"
  | .bool _ => .error "TypeError: bool is not iterable"
  | .int _ => .error "TypeError: int is not iterable"
  | .float _ => .error "TypeError: float is not iterable"

/-- The post-decode part of `find_competitors`:
`companies = (data.get("results") or \x7b\x7d).get("companies") or []`,
then the collection loop, then `names[:10]`.  Calling `.get` on a truthy
non-dict raises `AttributeError`; iterating a number or boolean raises
`TypeError`; both are modelled as errors because the code does not catch
them. -/
def extract_names (data : JVal) : Except String (List String) :=
  match asObj data with
  | none => .error "AttributeError: .get on non-dict response"
  | some dfields =>
    let results := dictGet dfields "results"
    let results1 : JVal := if pyTruthy results then results else .obj []
    match asObj results1 with
    | none => .error "AttributeError: .get on non-dict results"
    | some rfields =>
      let companies := dictGet rfields "companies"
      let companies1 : JVal := if pyTruthy companies then companies else .arr []
      match pyIterate companies1 with
      | .error e => .error e
      | .ok items => .ok ((collectNames items []).take 10)

/-- `find_competitors(business_model, keywords)` from src/company.py, with
the single HTTP interaction reified as an `HttpResult`.  Modelled from
requests' documented behavior: `raise_for_status` raises `HTTPError` (a
`RequestException`) exactly for status codes 400-599, and `response.json()`
raises `json.JSONDecodeError` on a malformed body; both exception types are
caught by the code and turned into `[]`. -/
def find_competitors (business_model keywords : String) (http : HttpResult) :
    Except String (List String) :=
  if keywords = "" ∨ pyStrip keywords = "" then .ok []
  else
    match http with
    | .requestError _ => .ok []
    | .response status body =>
      if 400 ≤ status ∧ status < 600 then .ok []
      else
        match jsonParse body with
        | .error _ => .ok []
        | .ok data => extract_names data

/-- The declared data model of `CompanyProfile` (spec section 3):
`customer_type` null or one of B2B/B2C, `stage` null or one of
pre-seed/seed. -/
def profileMatchesDataModel (p : CompanyProfile) : Prop :=
  (p.customer_type = .null ∨ p.customer_type = .str "B2B" ∨
    p.customer_type = .str "B2C") ∧
  (p.stage = .null ∨ p.stage = .str "pre-seed" ∨ p.stage = .str "seed")

/-- The amended competitor-list normalization policy, written from the
amended claim's words: null to the empty list, a list to the trimmed string
forms of its truthy elements, any scalar to a one-element list of its
trimmed string form.  To be compared against `_ensure_competitors_list`. -/
def normalizeCompetitorsSpec (value : JVal) : List String :=
  match value with
  | .null => []
  | .arr items =>
    items.filterMap (fun item =>
      if pyTruthy item then some (pyStrip (pyStr item)) else none)
  | v => [pyStrip (pyStr v)]

/-- A model response with leading prose, a fenced JSON block, and trailing
prose — the shape of the spec's parsing example. -/
def exampleResponse : String :=
  "Here you go:\n```json\n\x7b\"business_model\": \"SaaS\", \"customer_type\": \"B2B\", \"stage\": \"seed\", \"milestone\": \"Launch beta\", \"mentioned_competitors\": [\"Acme\", \"Globex\"]\x7d\n```\nThanks!"

/-- The profile contained in `exampleResponse`. -/
def exampleProfile : CompanyProfile :=
  ⟨.str "SaaS", .str "B2B", .str "seed", .str "Launch beta", ["Acme", "Globex"]⟩

/-- A fenced model response whose fence content has prose around the JSON
object: the depth-counting truncation still recovers the object. -/
def fencedProseResponse : String :=
  "```json\nnote \x7b\"business_model\": \"SaaS\"\x7d end\n```"

/-- A registry response listing the same company twice. -/
def duplicateRegistryData : JVal :=
  .obj [("results", .obj [("companies",
    .arr [.obj [("company", .obj [("name", .str "Acme")])],
          .obj [("company", .obj [("name", .str "Acme")])]])])]

/-- A registry body with one well-formed company, used with a 304 status. -/
def redirectBody : String :=
  "\x7b\"results\": \x7b\"companies\": [\x7b\"company\": \x7b\"name\": \"Acme\"\x7d\x7d]\x7d\x7d"

/-- Items used to instantiate the collection contract concretely. -/
def sampleItems : List JVal :=
  [.obj [("company", .obj [("name", .str " A ")])], .str "junk",
   .obj [("company", .obj [("name", JVal.null)])]]

/-! ### Helper lemmas about the finance functions -/

lemma calculate_burn_ok (rows : List MonthlyRecord) (hne : rows.isEmpty = false) :
    calculate_burn rows = .ok (meanExpenses rows) := by
  unfold calculate_burn meanExpenses
  rw [hne]
  simp

lemma calculate_runway_ok_of_nonneg (c b : Rat) (hc : 0 ≤ c) (hb : 0 ≤ b) :
    calculate_runway c b = .ok (if b = 0 then 0 else c / b) := by
  unfold calculate_runway
  rw [if_neg (not_lt.mpr hc), if_neg (not_lt.mpr hb)]
  by_cases h : b = 0 <;> simp [h]

lemma simulate_downside_ok (b p : Rat) (hb : 0 ≤ b) (hp : 0 ≤ p) :
    simulate_downside b p = .ok (b * (1 + p / 100)) := by
  unfold simulate_downside
  rw [if_neg (not_lt.mpr hb), if_neg (not_lt.mpr hp)]

/-- Characterization of a successful `analyze_financials` run: on a
non-empty dataset with non-negative mean expense and non-negative last
cash balance, each metric is the stated formula. -/
lemma analyze_financials_ok (rows : List MonthlyRecord)
    (hne : rows ≠ []) (hμ : 0 ≤ meanExpenses rows) (hc : 0 ≤ lastCash rows) :
    analyze_financials rows =
      .ok ⟨meanExpenses rows,
           if meanExpenses rows = 0 then 0 else lastCash rows / meanExpenses rows,
           meanExpenses rows * (1 + 20 / 100),
           if meanExpenses rows * (1 + 20 / 100) = 0 then 0
           else lastCash rows / (meanExpenses rows * (1 + 20 / 100))⟩ := by
  have hne' : rows.isEmpty = false := by
    simp [List.isEmpty_iff, hne]
  have hd : (0 : Rat) ≤ meanExpenses rows * (1 + 20 / 100) := by positivity
  unfold analyze_financials
  rw [hne']
  simp only [Bool.false_eq_true, if_false, calculate_burn_ok rows hne',
    calculate_runway_ok_of_nonneg _ _ hc hμ,
    simulate_downside_ok (meanExpenses rows) 20 hμ (by norm_num),
    calculate_runway_ok_of_nonneg _ _ hc hd]

lemma calculate_runway_ok_inv {c b r : Rat} (h : calculate_runway c b = .ok r) :
    0 ≤ c ∧ 0 ≤ b := by
  unfold calculate_runway at h
  by_cases hc : c < 0
  · rw [if_pos hc] at h; cases h
  · by_cases hb : b < 0
    · rw [if_neg hc, if_pos hb] at h; cases h
    · exact ⟨not_lt.mp hc, not_lt.mp hb⟩

/-- A successful `analyze_financials` run forces a non-empty dataset,
non-negative mean expense and non-negative last cash balance. -/
lemma analyze_financials_ok_inv {rows : List MonthlyRecord} {m : FinancialMetrics}
    (h : analyze_financials rows = .ok m) :
    rows ≠ [] ∧ 0 ≤ meanExpenses rows ∧ 0 ≤ lastCash rows := by
  by_cases hne : rows = []
  · subst hne
    simp [analyze_financials] at h
  · have hne' : rows.isEmpty = false := by simp [List.isEmpty_iff, hne]
    unfold analyze_financials at h
    rw [hne', calculate_burn_ok rows hne'] at h
    simp only [Bool.false_eq_true, if_false] at h
    cases hr : calculate_runway (lastCash rows) (meanExpenses rows) with
    | error e => rw [hr] at h; cases h
    | ok r =>
      have hcb := calculate_runway_ok_inv hr
      exact ⟨hne, hcb.2, hcb.1⟩

lemma meanExpenses_csvExample : meanExpenses csvExample = 1000 := by
  norm_num [meanExpenses, csvExample]

lemma lastCash_csvExample : lastCash csvExample = 10000 := rfl

/-- `analyze_financials` on the spec's worked example returns the claimed
concrete metrics. -/
lemma analyze_financials_csvExample :
    analyze_financials csvExample = .ok ⟨1000, 10, 1200, 25 / 3⟩ := by
  rw [analyze_financials_ok csvExample (by simp [csvExample])
    (by rw [meanExpenses_csvExample]; norm_num)
    (by rw [lastCash_csvExample]; norm_num)]
  rw [meanExpenses_csvExample, lastCash_csvExample]
  norm_num

/-! ### Claim theorems for the finance component -/

/-- C2: `calculate_runway` returns exactly `cash_balance / monthly_burn` for
non-negative cash and positive burn, returns `0.0` for zero burn and
non-negative cash, and raises `ValueError` whenever either argument is
negative. -/
theorem calculate_runway_contract (c b : Rat) :
    (0 ≤ c → 0 < b → calculate_runway c b = .ok (c / b)) ∧
    (0 ≤ c → calculate_runway c 0 = .ok 0) ∧
    (c < 0 ∨ b < 0 → ∃ msg, calculate_runway c b = .error msg) := by
  refine ⟨fun hc hb => ?_, fun hc => ?_, fun h => ?_⟩
  · rw [calculate_runway_ok_of_nonneg c b hc hb.le, if_neg hb.ne']
  · rw [calculate_runway_ok_of_nonneg c 0 hc le_rfl, if_pos rfl]
  · unfold calculate_runway
    rcases h with h | h
    · exact ⟨_, by rw [if_pos h]⟩
    · by_cases hc : c < 0
      · exact ⟨_, by rw [if_pos hc]⟩
      · exact ⟨_, by rw [if_neg hc, if_pos h]⟩

/-- Witness for C2 at concrete inputs. -/
theorem calculate_runway_contract_witness :
    calculate_runway 10 2 = .ok (10 / 2) ∧ calculate_runway 7 0 = .ok 0 ∧
    ∃ msg, calculate_runway (-1) 2 = .error msg :=
  ⟨(calculate_runway_contract 10 2).1 (by norm_num) (by norm_num),
   (calculate_runway_contract 7 0).2.1 (by norm_num),
   (calculate_runway_contract (-1) 2).2.2 (Or.inl (by norm_num))⟩

/-- C8: `simulate_downside` returns `monthly_burn * (1 + increase_percent/100)`
for non-negative arguments, is the identity at `increase_percent = 0`,
returns `12000.0` on `(10000, 20)`, and raises `ValueError` when either
argument is negative. -/
theorem simulate_downside_contract (b p : Rat) :
    (0 ≤ b → 0 ≤ p → simulate_downside b p = .ok (b * (1 + p / 100))) ∧
    (0 ≤ b → simulate_downside b 0 = .ok b) ∧
    simulate_downside 10000 20 = .ok 12000 ∧
    (b < 0 ∨ p < 0 → ∃ msg, simulate_downside b p = .error msg) := by
  refine ⟨fun hb hp => simulate_downside_ok b p hb hp, fun hb => ?_, ?_, fun h => ?_⟩
  · rw [simulate_downside_ok b 0 hb le_rfl]
    norm_num
  · rw [simulate_downside_ok 10000 20 (by norm_num) (by norm_num)]
    norm_num
  · unfold simulate_downside
    rcases h with h | h
    · exact ⟨_, by rw [if_pos h]⟩
    · by_cases hb : b < 0
      · exact ⟨_, by rw [if_pos hb]⟩
      · exact ⟨_, by rw [if_neg hb, if_pos h]⟩

/-- Witness for C8 at concrete inputs. -/
theorem simulate_downside_contract_witness :
    simulate_downside 5 30 = .ok (5 * (1 + 30 / 100)) ∧
    simulate_downside 5 0 = .ok 5 ∧
    simulate_downside 10000 20 = .ok 12000 ∧
    ∃ msg, simulate_downside (-2) 20 = .error msg :=
  ⟨(simulate_downside_contract 5 30).1 (by norm_num) (by norm_num),
   (simulate_downside_contract 5 0).2.1 (by norm_num),
   (simulate_downside_contract 10000 20).2.2.1,
   (simulate_downside_contract (-2) 20).2.2.2 (Or.inl (by norm_num))⟩

/-- C1 counterexample: a dataset that has all three required columns and one
row, but negative expenses, makes `analyze_financials` raise the
input-validation error instead of returning a record — so the claim's
universal quantification over all datasets with the required columns and at
least one row fails. -/
theorem analyze_financials_negative_row_errors :
    analyze_financials [⟨"2024-01", -100, 50⟩] =
      .error "monthly_burn must be non-negative" := by
  have hμ : meanExpenses [⟨"2024-01", -100, 50⟩] = -100 := by
    norm_num [meanExpenses]
  have hb : calculate_burn [⟨"2024-01", -100, 50⟩] = .ok (-100) := by
    rw [calculate_burn_ok [⟨"2024-01", -100, 50⟩] rfl, hμ]
  have hl : lastCash [(⟨"2024-01", -100, 50⟩ : MonthlyRecord)] = 50 := rfl
  have hr : calculate_runway (lastCash [⟨"2024-01", -100, 50⟩]) (-100) =
      .error "monthly_burn must be non-negative" := by
    rw [hl]
    norm_num [calculate_runway]
  unfold analyze_financials
  rw [show ([(⟨"2024-01", -100, 50⟩ : MonthlyRecord)]).isEmpty = false from rfl]
  simp only [Bool.false_eq_true, if_false, hb, hr]

/-- C1 (amended): for every dataset with the three required columns, at
least one row, non-negative mean expenses and non-negative final cash
balance, `analyze_financials` returns a record with burn the mean of the
expenses column, runway the last cash balance divided by burn (0 when burn
is 0), downside burn `burn * 1.2`, and runway-at-downside the last cash
balance divided by the downside burn (0 when that is 0). -/
theorem analyze_financials_contract (rows : List MonthlyRecord)
    (hne : rows ≠ []) (hμ : 0 ≤ meanExpenses rows) (hc : 0 ≤ lastCash rows) :
    ∃ m, analyze_financials rows = .ok m ∧
      m.burn = meanExpenses rows ∧
      m.runway = (if m.burn = 0 then 0 else lastCash rows / m.burn) ∧
      m.downside_burn = m.burn * 1.2 ∧
      m.runway_at_downside =
        (if m.downside_burn = 0 then 0 else lastCash rows / m.downside_burn) := by
  refine ⟨_, analyze_financials_ok rows hne hμ hc, rfl, rfl, by norm_num, rfl⟩

/-- Witness for C1 on the spec's worked 3-row example, checking the claimed
concrete metrics `burn = 1000`, `runway = 10`, `downside_burn = 1200`,
`runway_at_downside = 10000 / 1200 = 25/3`. -/
theorem analyze_financials_contract_witness :
    (∃ m, analyze_financials csvExample = .ok m ∧
      m.burn = meanExpenses csvExample ∧
      m.runway = (if m.burn = 0 then 0 else lastCash csvExample / m.burn) ∧
      m.downside_burn = m.burn * 1.2 ∧
      m.runway_at_downside =
        (if m.downside_burn = 0 then 0 else lastCash csvExample / m.downside_burn)) ∧
    analyze_financials csvExample = .ok ⟨1000, 10, 1200, 25 / 3⟩ :=
  ⟨analyze_financials_contract csvExample (by simp [csvExample])
      (by rw [meanExpenses_csvExample]; norm_num)
      (by rw [lastCash_csvExample]; norm_num),
   analyze_financials_csvExample⟩

/-- C10: whenever `analyze_financials` succeeds with strictly positive burn,
the metrics satisfy `downside_burn = 1.2 * burn` and
`runway_at_downside = runway / 1.2` exactly, hence
`runway_at_downside ≤ runway`. -/
theorem analyze_financials_downside_relations (rows : List MonthlyRecord)
    (m : FinancialMetrics) (h : analyze_financials rows = .ok m)
    (hb : 0 < m.burn) :
    m.downside_burn = 1.2 * m.burn ∧
    m.runway_at_downside = m.runway / 1.2 ∧
    m.runway_at_downside ≤ m.runway := by
  obtain ⟨hne, hμ, hc⟩ := analyze_financials_ok_inv h
  rw [analyze_financials_ok rows hne hμ hc] at h
  injection h with h
  subst h
  simp only at hb ⊢
  have hμ0 : meanExpenses rows ≠ 0 := ne_of_gt hb
  have hd0 : meanExpenses rows * (1 + 20 / 100) ≠ 0 := by positivity
  rw [if_neg hμ0, if_neg hd0]
  refine ⟨by ring, ?_, ?_⟩
  · rw [div_div]
    congr 1
    ring
  · have hrun : (0 : Rat) ≤ lastCash rows / meanExpenses rows := by positivity
    calc lastCash rows / (meanExpenses rows * (1 + 20 / 100))
        = (lastCash rows / meanExpenses rows) / (1 + 20 / 100) := by
          rw [div_div]
      _ ≤ lastCash rows / meanExpenses rows := div_le_self hrun (by norm_num)

/-- Witness for C10 on the spec's worked 3-row example. -/
theorem analyze_financials_downside_relations_witness :
    (1200 : Rat) = 1.2 * 1000 ∧ (25 / 3 : Rat) = 10 / 1.2 ∧ (25 / 3 : Rat) ≤ 10 :=
  analyze_financials_downside_relations csvExample ⟨1000, 10, 1200, 25 / 3⟩
    analyze_financials_csvExample (by norm_num)

/-! ### Helper lemmas about the company module -/

lemma filter_map_eq_filterMap (p : JVal → Bool) (f : JVal → String)
    (l : List JVal) :
    (l.filter p).map f =
      l.filterMap (fun a => if p a then some (f a) else none) := by
  induction l with
  | nil => rfl
  | cons a t ih => by_cases h : p a <;> simp [h, ih]

lemma truthyString_some {t s : String} (h : truthyString t = some s) :
    s = t ∧ t ≠ "" := by
  unfold truthyString at h
  by_cases hc : t = ""
  · rw [if_pos hc] at h; cases h
  · rw [if_neg hc] at h
    exact ⟨(Option.some_inj.mp h).symm, hc⟩

lemma strippedName_ne_empty {v : JVal} {s : String}
    (h : strippedName v = some s) : s ≠ "" := by
  cases v
  case null => exact absurd h (by simp [strippedName])
  all_goals
    simp only [strippedName] at h
    obtain ⟨rfl, hne⟩ := truthyString_some h
    exact hne

lemma acceptedName_some {item : JVal} {s : String}
    (h : acceptedName item = some s) : ∃ v, strippedName v = some s := by
  cases hio : asObj item with
  | none =>
    rw [show acceptedName item = none by simp only [acceptedName, hio]] at h
    cases h
  | some ifields =>
    cases hco : asObj (dictGet ifields "company") with
    | none =>
      rw [show acceptedName item = none by simp only [acceptedName, hio, hco]] at h
      cases h
    | some cfields =>
      rw [show acceptedName item = strippedName (dictGet cfields "name") by
        simp only [acceptedName, hio, hco]] at h
      exact ⟨_, h⟩

/-- The collection loop with the early break is the first ten accepted
names: collecting with an accumulator shorter than ten and breaking at ten
equals truncating the full accepted list. -/
lemma collectNames_eq (items : List JVal) (acc : List String)
    (h : acc.length < 10) :
    collectNames items acc = (acc ++ items.filterMap acceptedName).take 10 := by
  induction items generalizing acc with
  | nil =>
    simp only [collectNames, List.filterMap_nil, List.append_nil]
    exact (List.take_of_length_le (Nat.le_of_lt h)).symm
  | cons item rest ih =>
    cases hio : asObj item with
    | none =>
      have hcl : collectNames (item :: rest) acc = collectNames rest acc := by
        simp only [collectNames, hio]
      have ha : acceptedName item = none := by
        simp only [acceptedName, hio]
      rw [hcl, ih acc h, List.filterMap_cons, ha]
    | some ifields =>
      cases hco : asObj (dictGet ifields "company") with
      | none =>
        have hcl : collectNames (item :: rest) acc = collectNames rest acc := by
          simp only [collectNames, hio, hco]
        have ha : acceptedName item = none := by
          simp only [acceptedName, hio, hco]
        rw [hcl, ih acc h, List.filterMap_cons, ha]
      | some cfields =>
        have ha : acceptedName item = strippedName (dictGet cfields "name") := by
          simp only [acceptedName, hio, hco]
        cases hsn : strippedName (dictGet cfields "name") with
        | none =>
          have hcl : collectNames (item :: rest) acc =
              if 10 ≤ acc.length then acc else collectNames rest acc := by
            simp only [collectNames, hio, hco, hsn]
          rw [hcl, if_neg (by omega : ¬ 10 ≤ acc.length), ih acc h,
            List.filterMap_cons, ha, hsn]
        | some s =>
          have hcl : collectNames (item :: rest) acc =
              if 10 ≤ (acc ++ [s]).length then acc ++ [s]
              else collectNames rest (acc ++ [s]) := by
            simp only [collectNames, hio, hco, hsn]
          rw [hcl, List.filterMap_cons, ha, hsn]
          by_cases hlen : 10 ≤ (acc ++ [s]).length
          · rw [if_pos hlen]
            have hlen' : (acc ++ [s]).length = 10 := by
              simp at hlen ⊢
              omega
            rw [show acc ++ s :: rest.filterMap acceptedName =
                  (acc ++ [s]) ++ rest.filterMap acceptedName by simp,
              List.take_left' hlen']
          · rw [if_neg hlen, ih (acc ++ [s]) (by simp at hlen ⊢; omega)]
            simp

/-! ### Claim theorems for the company module -/

/-- C3 counterexample: a whitespace-only entry of the list is truthy, so it
survives the filter and then trims to the empty string — the result is not
a list of non-empty strings. -/
theorem ensure_competitors_whitespace_entry :
    _ensure_competitors_list (.arr [.str "Acme", .str " ", .str "Globex"]) =
      ["Acme", "", "Globex"] ∧
    "" ∈ _ensure_competitors_list (.arr [.str "Acme", .str " ", .str "Globex"]) := by
  refine ⟨rfl, ?_⟩
  rw [show _ensure_competitors_list (.arr [.str "Acme", .str " ", .str "Globex"]) =
    ["Acme", "", "Globex"] from rfl]
  simp

/-- C3 (amended): the normalization maps null to the empty list, a list to
the trimmed string forms of its truthy elements (entries that are empty
strings are removed, but a whitespace-only entry becomes an empty string in
the result), and any scalar to the one-element list of its trimmed string
form; the spec's three worked examples hold. -/
theorem ensure_competitors_normalization :
    (∀ v, _ensure_competitors_list v = normalizeCompetitorsSpec v) ∧
    _ensure_competitors_list .null = [] ∧
    _ensure_competitors_list (.str "Acme") = ["Acme"] ∧
    _ensure_competitors_list (.arr [.str "Acme", .str "", .str "Globex"]) =
      ["Acme", "Globex"] := by
  refine ⟨fun v => ?_, rfl, rfl, rfl⟩
  cases v <;>
    simp only [_ensure_competitors_list, normalizeCompetitorsSpec,
      filter_map_eq_filterMap]

/-- C5 counterexample: the normalization performs no enum validation, so a
model response with `customer_type` outside `\x7bB2B, B2C\x7d` produces a
profile violating the declared data model. -/
theorem normalize_profile_unvalidated_enum :
    (normalizeProfile [("customer_type", .str "Enterprise")]).customer_type =
      .str "Enterprise" ∧
    ¬ profileMatchesDataModel
      (normalizeProfile [("customer_type", .str "Enterprise")]) := by
  refine ⟨rfl, ?_⟩
  intro h
  obtain ⟨h1, -⟩ := h
  rw [show (normalizeProfile [("customer_type", .str "Enterprise")]).customer_type =
    .str "Enterprise" from rfl] at h1
  rcases h1 with h1 | h1 | h1 <;> simp at h1

/-- C5 (amended): `customer_type` and `stage` are copied verbatim from the
model's JSON object (null when missing), so the profile satisfies the
declared data model exactly when the model's values already lie in the
declared enums. -/
theorem normalize_profile_enum_passthrough (fields : List (String × JVal))
    (hct : dictGet fields "customer_type" = .null ∨
      dictGet fields "customer_type" = .str "B2B" ∨
      dictGet fields "customer_type" = .str "B2C")
    (hst : dictGet fields "stage" = .null ∨
      dictGet fields "stage" = .str "pre-seed" ∨
      dictGet fields "stage" = .str "seed") :
    (normalizeProfile fields).customer_type = dictGet fields "customer_type" ∧
    (normalizeProfile fields).stage = dictGet fields "stage" ∧
    profileMatchesDataModel (normalizeProfile fields) :=
  ⟨rfl, rfl, hct, hst⟩

/-- Witness for C5 (amended) on a concrete in-enum model object. -/
theorem normalize_profile_enum_passthrough_witness :
    (normalizeProfile [("customer_type", .str "B2B"), ("stage", .str "seed")]).customer_type =
      dictGet [("customer_type", .str "B2B"), ("stage", .str "seed")] "customer_type" ∧
    (normalizeProfile [("customer_type", .str "B2B"), ("stage", .str "seed")]).stage =
      dictGet [("customer_type", .str "B2B"), ("stage", .str "seed")] "stage" ∧
    profileMatchesDataModel
      (normalizeProfile [("customer_type", .str "B2B"), ("stage", .str "seed")]) :=
  normalize_profile_enum_passthrough
    [("customer_type", .str "B2B"), ("stage", .str "seed")]
    (Or.inr (Or.inl rfl)) (Or.inr (Or.inr rfl))

/-- C6 counterexample: the code strips the fence AND then brace-truncates,
so a fenced block with prose around the object parses successfully; the
claimed pipeline ("otherwise") would try to decode the whole fence content
and fail. -/
theorem parse_profile_fence_then_brace :
    _parse_profile_json fencedProseResponse =
      .ok ⟨.str "SaaS", .null, .null, .null, []⟩ ∧
    parseProfileClaimed fencedProseResponse =
      .error ("Failed to parse MiniMax response as JSON. Raw response: " ++
        pyTake 500 fencedProseResponse) :=
  ⟨rfl, rfl⟩

set_option maxRecDepth 10000 in
/-- C6 (amended): the parser strips a fenced code block if present, then in
either case locates the first brace and truncates at its matching closing
brace found by depth counting, then decodes the remainder as JSON; a decode
failure raises an error carrying the first 500 characters of the raw
response, while a decoded non-object raises an error naming only the type;
the prose-plus-fenced-block example parses to exactly the inner object. -/
theorem parse_profile_pipeline :
    (∀ response, _parse_profile_json response = parseProfileAmended response) ∧
    _parse_profile_json exampleResponse = .ok exampleProfile := by
  refine ⟨fun r => ?_, rfl⟩
  unfold _parse_profile_json parseProfileAmended
  cases hf : fencedBlock (pyStrip r) with
  | none =>
    simp only [hf, Option.getD_none]
    cases hj : jsonParse (braceTruncate (pyStrip r)) with
    | error e => simp [hj]
    | ok v => cases v <;> simp [hj]
  | some inner =>
    simp only [hf, Option.getD_some]
    cases hj : jsonParse (braceTruncate inner) with
    | error e => simp [hj]
    | ok v => cases v <;> simp [hj]

/-- C9: on empty or whitespace-only input the extractor returns the
all-defaults profile without consulting the model: the result is the same
for any two model functions. -/
theorem extract_company_profile_empty_input
    (chat chat2 : String → String → Except String String) (s : String)
    (h : pyStrip s = "") :
    extract_company_profile chat s = .ok emptyProfile ∧
    extract_company_profile chat s = extract_company_profile chat2 s := by
  have h1 : extract_company_profile chat s = .ok emptyProfile := by
    unfold extract_company_profile
    rw [if_pos (Or.inr h)]
  have h2 : extract_company_profile chat2 s = .ok emptyProfile := by
    unfold extract_company_profile
    rw [if_pos (Or.inr h)]
  exact ⟨h1, h1.trans h2.symm⟩

/-- Witness for C9 on a whitespace-only description, with one model that
fails and one that answers: the extractor ignores both. -/
theorem extract_company_profile_empty_input_witness :
    extract_company_profile (fun _ _ => .error "offline") "  \n\t " =
      .ok emptyProfile ∧
    extract_company_profile (fun _ _ => .error "offline") "  \n\t " =
      extract_company_profile (fun _ _ => .ok "\x7b\x7d") "  \n\t " :=
  extract_company_profile_empty_input _ _ "  \n\t " rfl

/-- C4 counterexample: the lookup never deduplicates, so a response listing
the same company twice yields the name twice — the returned names are not
distinct. -/
theorem extract_names_keeps_duplicates :
    extract_names duplicateRegistryData = .ok ["Acme", "Acme"] ∧
    ¬ (["Acme", "Acme"] : List String).Nodup := by
  refine ⟨rfl, ?_⟩
  simp

/-- C4 (amended): on a response shaped `results.companies = [items]` the
lookup returns the first ten accepted names in order (possibly with
duplicates): at most ten names, every returned name non-empty, and an entry
whose `name` is missing, null, or empty after trimming contributes
nothing. -/
theorem find_competitors_names_contract (items : List JVal) :
    extract_names (.obj [("results", .obj [("companies", .arr items)])]) =
      .ok ((items.filterMap acceptedName).take 10) ∧
    ((items.filterMap acceptedName).take 10).length ≤ 10 ∧
    (∀ s, s ∈ (items.filterMap acceptedName).take 10 → s ≠ "") ∧
    (∀ cfields : List (String × JVal),
      dictGet cfields "name" = .null ∨
        pyStrip (pyStr (dictGet cfields "name")) = "" →
      acceptedName (.obj [("company", .obj cfields)]) = none) := by
  refine ⟨?_, ?_, ?_, ?_⟩
  · rcases items with _ | ⟨a, t⟩
    · rfl
    · show Except.ok ((collectNames (a :: t) []).take 10) = _
      rw [collectNames_eq (a :: t) [] (by norm_num)]
      simp [List.take_take]
  · simp only [List.length_take]
    exact min_le_left _ _
  · intro s hs
    obtain ⟨item, _, hacc⟩ := List.mem_filterMap.mp (List.mem_of_mem_take hs)
    obtain ⟨v, hv⟩ := acceptedName_some hacc
    exact strippedName_ne_empty hv
  · intro cfields h
    show strippedName (dictGet cfields "name") = none
    rcases h with h | h
    · rw [h]
      rfl
    · cases hv : dictGet cfields "name"
      case null => rfl
      all_goals
        rw [hv] at h
        simp only [strippedName, truthyString, if_pos h]

/-- Witness for C4 (amended) on concrete items: one acceptable entry with a
padded name, one non-dict entry, one entry with a null name. -/
theorem find_competitors_names_contract_witness :
    extract_names (.obj [("results", .obj [("companies", .arr sampleItems)])]) =
      .ok ((sampleItems.filterMap acceptedName).take 10) ∧
    "A" ≠ "" ∧
    acceptedName (.obj [("company", .obj [("name", JVal.null)])]) = none :=
  ⟨(find_competitors_names_contract sampleItems).1,
   (find_competitors_names_contract sampleItems).2.2.1 "A" (by decide),
   (find_competitors_names_contract sampleItems).2.2.2 [("name", JVal.null)]
     (Or.inl rfl)⟩

/-- C7 counterexample: only statuses 400-599 are swallowed by
`raise_for_status`; a 304 response (non-2xx) with a well-formed body is
processed and returns a non-empty list. -/
theorem find_competitors_redirect_not_swallowed :
    find_competitors "saas" "fintech" (.response 304 redirectBody) =
      .ok ["Acme"] ∧
    (["Acme"] : List String) ≠ [] := by
  refine ⟨rfl, ?_⟩
  simp

/-- C7 (amended): the lookup returns the empty list — and raises nothing —
for every transport failure (connection error, timeout), every 4xx/5xx
status, and every body that is not decodable JSON. -/
theorem find_competitors_failure_degradation (bm kw : String) :
    (∀ msg, find_competitors bm kw (.requestError msg) = .ok []) ∧
    (∀ status body, 400 ≤ status → status < 600 →
      find_competitors bm kw (.response status body) = .ok []) ∧
    (∀ status body e, jsonParse body = .error e →
      find_competitors bm kw (.response status body) = .ok []) := by
  by_cases hk : kw = "" ∨ pyStrip kw = ""
  · refine ⟨fun msg => ?_, fun status body h1 h2 => ?_, fun status body e hj => ?_⟩ <;>
      · unfold find_competitors
        rw [if_pos hk]
  · have hresp : ∀ status body,
        find_competitors bm kw (.response status body) =
          if 400 ≤ status ∧ status < 600 then .ok []
          else
            match jsonParse body with
            | .error _ => .ok []
            | .ok data => extract_names data := by
      intro status body
      unfold find_competitors
      rw [if_neg hk]
    refine ⟨fun msg => ?_, fun status body h1 h2 => ?_, fun status body e hj => ?_⟩
    · unfold find_competitors
      rw [if_neg hk]
    · rw [hresp, if_pos ⟨h1, h2⟩]
    · rw [hresp]
      by_cases hs : 400 ≤ status ∧ status < 600
      · rw [if_pos hs]
      · rw [if_neg hs, hj]

/-- Witness for C7 (amended): a timeout, a 500 status, and a 200 status
with an undecodable body all yield the empty list. -/
theorem find_competitors_failure_degradation_witness :
    find_competitors "saas" "fintech" (.requestError "timeout") = .ok [] ∧
    find_competitors "saas" "fintech" (.response 500 "\x7b\x7d") = .ok [] ∧
    find_competitors "saas" "fintech" (.response 200 "not json") = .ok [] :=
  ⟨(find_competitors_failure_degradation "saas" "fintech").1 "timeout",
   (find_competitors_failure_degradation "saas" "fintech").2.1 500 "\x7b\x7d"
     (by norm_num) (by norm_num),
   (find_competitors_failure_degradation "saas" "fintech").2.2 200 "not json"
     "Expecting value" rfl⟩

end Teambuild
